import Mathlib

/-!
Verification of the pandastim stimulus-presentation code.

The definitions below are a shallow embedding of the Python sources
`drifting_grating_experiment.py` and `stimulus_classes.py`:
pure numeric code becomes Lean functions over `ℚ` (Python floats are
modelled as exact rationals), numpy arrays become (nested) lists,
stateful per-frame task callbacks become explicit state-passing
functions, and fallible Python code (IndexError, AttributeError,
ValueError) returns `Except`.
-/

/-! ## Generic Python-semantics helpers -/

/-- Python list indexing `l[i]` for an `int` index: negative indices count
from the end; an out-of-range index is an IndexError (`none`). -/
def pyGet (l : List α) (i : Int) : Option α :=
  if 0 ≤ i then l[i.toNat]?
  else if (-i).toNat ≤ l.length then l[l.length - (-i).toNat]? else none

/-- `itertools.zip_longest` with the default fill value `None`. -/
def zipLongest : List α → List β → List (Option α × Option β)
  | [], ys => ys.map (fun y => (none, some y))
  | x :: xs, [] => (some x, none) :: zipLongest xs []
  | x :: xs, y :: ys => (some x, some y) :: zipLongest xs ys

/-- `np.cumsum` on a 1-d array: the list of running sums
(`[a 0, a 0 + a 1, ...]`, same length as the input). -/
def cumsum (l : List ℚ) : List ℚ :=
  (l.scanl (· + ·) 0).tail

/-! ## Texture generation (`drifting_grating_experiment.py`, lines 28-33) -/

/-- The period `2*np.pi` used by `scipy.signal.square`, as the rational
value of the float64 constant 6.283185307179586.  The theorems below do
not depend on its exact value, only on the shape of the square-wave
formula. -/
def twoPi : ℚ := 6283185307179586 / 1000000000000000

/-- `scipy.signal.square(t)` with the default duty cycle 0.5:
`+1` while `t mod 2π` is in the first half of the period, `-1` in the
second half (`tmod = np.mod(t, 2π); 1 if tmod < π else -1`). -/
def scipySquare (t : ℚ) : ℚ :=
  let tmod := t - twoPi * (⌊t / twoPi⌋ : ℤ)
  if tmod < twoPi / 2 then 1 else -1

/-- `squareWave(X, freq) = signal.square(X*freq)` applied elementwise to a
2-d array (line 28-29). -/
def squareWave (X : List (List ℚ)) (freq : ℚ) : List (List ℚ) :=
  X.map (fun row => row.map (fun x => scipySquare (x * freq)))

/-- The cast `np.asarray(·, dtype=np.uint8)` for the non-negative float
values produced by `square8bit` (a C cast truncates toward zero, which on
non-negative values is the floor, reduced mod 256). -/
def npUint8OfRat (q : ℚ) : Nat := (⌊q⌋).toNat % 256

/-- `square8bit(X, freq)` (lines 30-33): take the ±1 square wave, map it
through `(v+1)*127.5` to 0-255, and cast to `np.uint8`. -/
def square8bit (X : List (List ℚ)) (freq : ℚ) : List (List Nat) :=
  (squareWave X freq).map (fun row => row.map (fun v => npUint8OfRat ((v + 1) * (255 / 2))))

/-! ## Event-timeline derivation (`drifting_grating_experiment.py`, lines 39-47) -/

/-- `event_durations = [y for x in zip_longest(inter_stimulus_times,
stim_durations) for y in x if y is not None]` (line 41): interleave the
two lists, dropping the `None` fill values. -/
def event_durations_of (inter stim : List ℚ) : List ℚ :=
  ((zipLongest inter stim).map (fun p => [p.1, p.2].filterMap id)).flatten

/-- `event_change_times = np.cumsum(event_durations)[:-1]` (line 42). -/
def event_change_times_of (inter stim : List ℚ) : List ℚ :=
  (cumsum (event_durations_of inter stim)).dropLast

/-- Module constant `stim_durations = (4, 4, 6, 5)` (line 19). -/
def stim_durations : List ℚ := [4, 4, 6, 5]

/-- Module constant `inter_stimulus_times = (4, 3, 3, 2.5, 5)` (line 22);
2.5 is written as the exact fraction 5/2. -/
def inter_stimulus_times : List ℚ := [4, 3, 3, 5 / 2, 5]

/-- `num_stim = len(stim_durations)` (line 40). -/
def num_stim : Nat := stim_durations.length

/-- The module's `event_durations` value (line 41). -/
def event_durations : List ℚ := event_durations_of inter_stimulus_times stim_durations

/-- The module's `event_change_times` value (line 42). -/
def event_change_times : List ℚ := event_change_times_of inter_stimulus_times stim_durations

/-- `num_event_changes = len(event_change_times)` (line 43). -/
def num_event_changes : Nat := event_change_times.length

/-! ## Binocular mask arrays (`stimulus_classes.py`, lines 179-183) -/

/-- `self.left_mask_array = 255*np.ones((texture_size,texture_size),
dtype=np.uint8); self.left_mask_array[:, texture_size//2 - band_radius:] = 0`
(lines 180-181): every entry starts at 255 and the columns from
`texture_size//2 - band_radius` on are overwritten with 0.  (The slice
start is non-negative in the modelled range `band_radius ≤ texture_size//2`,
where Python and `Nat` subtraction agree.) -/
def left_mask_array (texture_size band_radius : Nat) : List (List Nat) :=
  List.replicate texture_size
    ((List.range texture_size).map
      (fun c => if texture_size / 2 - band_radius ≤ c then 0 else 255))

/-- `self.right_mask_array = 255*np.ones(...); self.right_mask_array[:,
: texture_size//2 + band_radius] = 0` (lines 182-183): every entry starts
at 255 and the columns below `texture_size//2 + band_radius` are
overwritten with 0. -/
def right_mask_array (texture_size band_radius : Nat) : List (List Nat) :=
  List.replicate texture_size
    ((List.range texture_size).map
      (fun c => if c < texture_size / 2 + band_radius then 0 else 255))

/-- Pixel accessor for a mask array (row `r`, column `c`). -/
def maskAt (m : List (List Nat)) (r c : Nat) : Nat := (m.getD r []).getD c 0

/-! ## Coordinate conversions (`stimulus_classes.py`, lines 313-319) -/

/-- `BinocularDrift.ndc2uv`: `0.5*val` (0.5 written as 1/2). -/
def ndc2uv (val : ℚ) : ℚ := (1 / 2) * val

/-- `BinocularDrift.uv2ndc`: `2*val`. -/
def uv2ndc (val : ℚ) : ℚ := 2 * val

/-! ## Texture validation (`stimulus_classes.py`) -/

/-- Model of the numpy element dtypes the code inspects: the two supported
unsigned-integer dtypes, and representatives for everything else. -/
inductive NpDtype
  | uint8
  | uint16
  | float64
  | other
deriving DecidableEq, Repr

/-- Panda3d texture component types selected by the code. -/
inductive TexComponent
  | t_unsigned_byte
  | t_unsigned_short
deriving DecidableEq, Repr

/-- Panda3d texture formats selected by the code. -/
inductive TexFormat
  | f_luminance
  | f_rgb8
deriving DecidableEq, Repr

/-- The Python exceptions the embedded code can raise. -/
inductive PsError
  | indexError
  | attributeError
  | valueError (msg : String)
deriving DecidableEq, Repr

/-- Component-type selection in `FullFieldDrift.__init__` (lines 75-78).
The `if/elif` has no `else` branch, so an unsupported dtype leaves
`self.texture_component_type` unassigned (`none`). -/
def fullFieldDrift_component_type : NpDtype → Option TexComponent
  | .uint8 => some .t_unsigned_byte
  | .uint16 => some .t_unsigned_short
  | _ => none

/-- Format selection and texture setup in `FullFieldDrift.__init__`
(lines 81-92).  For 2-d/3-d arrays the code reads
`self.texture_component_type`, which raises AttributeError when the dtype
selection left it unassigned; any other number of dimensions raises
`ValueError("Texture needs to be 2d or 3d")`. -/
def fullFieldDrift_texture_setup (dtype : NpDtype) (ndims : Nat) :
    Except PsError (TexComponent × TexFormat) :=
  match ndims with
  | 2 =>
    match fullFieldDrift_component_type dtype with
    | some ct => .ok (ct, .f_luminance)
    | none => .error .attributeError
  | 3 =>
    match fullFieldDrift_component_type dtype with
    | some ct => .ok (ct, .f_rgb8)
    | none => .error .attributeError
  | _ => .error (.valueError ("Texture needs to be 2d or 3d"))

/-- Component-type selection in `BinocularDrift.__init__` (lines 189-192),
identical in structure to the `FullFieldDrift` version. -/
def binocularDrift_component_type : NpDtype → Option TexComponent
  | .uint8 => some .t_unsigned_byte
  | .uint16 => some .t_unsigned_short
  | _ => none

/-- Format selection and texture setup in `BinocularDrift.__init__`
(lines 195-206), identical in structure to the `FullFieldDrift` version. -/
def binocularDrift_texture_setup (dtype : NpDtype) (ndims : Nat) :
    Except PsError (TexComponent × TexFormat) :=
  match ndims with
  | 2 =>
    match binocularDrift_component_type dtype with
    | some ct => .ok (ct, .f_luminance)
    | none => .error .attributeError
  | 3 =>
    match binocularDrift_component_type dtype with
    | some ct => .ok (ct, .f_rgb8)
    | none => .error .attributeError
  | _ => .error (.valueError ("Texture needs to be 2d or 3d"))

/-- Component-type selection in `FullFieldDriftExperiment.set_texture_task`
(lines 409-415): here an unsupported dtype raises ValueError explicitly. -/
def set_texture_component_type (dtype : NpDtype) : Except PsError TexComponent :=
  match dtype with
  | .uint8 => .ok .t_unsigned_byte
  | .uint16 => .ok .t_unsigned_short
  | _ => .error (.valueError ("Texture needs to be uint8 or uint16. Let me know if you have others."))

/-- Format selection in `FullFieldDriftExperiment.set_texture_task`
(lines 417-425): 2-d is luminance "L", 3-d is rgb8 "RGB", anything else
raises ValueError. -/
def set_texture_format (ndims : Nat) : Except PsError (TexFormat × String) :=
  match ndims with
  | 2 => .ok (.f_luminance, "L")
  | 3 => .ok (.f_rgb8, "RGB")
  | _ => .error (.valueError ("Texture needs to be 2d or 3d (rgb). Let us know if you have others."))

/-- The dtype check followed by the ndims check, in the order
`set_texture_task` performs them (lines 409-425). -/
def set_texture_validate (dtype : NpDtype) (ndims : Nat) :
    Except PsError (TexComponent × TexFormat × String) :=
  match set_texture_component_type dtype with
  | .error e => .error e
  | .ok ct =>
    match set_texture_format ndims with
    | .error e => .error e
    | .ok fp => .ok (ct, fp.1, fp.2)

/-! ## `MyApp` (`drifting_grating_experiment.py`, lines 50-109)

The mutable attributes the per-frame task reads and writes become an
explicit state record; the module-level constants it reads become an
environment record.  Rendering calls that only push data to the GPU
(`setRamImage`, `requestProperties`, texture binding) have no observable
effect on the modelled state beyond the card fields recorded here. -/

inductive TaskResult
  | cont
  | done
deriving DecidableEq, Repr

/-- Module constant `bgcolor = (0.5, 0.5, 0.5, 1)` (line 27 of
`drifting_grating_experiment.py`; also `self.bgcolor` at line 361 of
`stimulus_classes.py`).  0.5 is written as the exact rational
`mkRat 1 2`. -/
def bgcolor : ℚ × ℚ × ℚ × ℚ := (mkRat 1 2, mkRat 1 2, mkRat 1 2, 1)

/-- The module-level constants read by `MyApp.moveTextureTask`. -/
structure MyAppEnv where
  event_change_times : List ℚ
  angles : List ℚ
  shift_velocities : List ℚ
deriving DecidableEq, Repr

/-- The mutable state touched by `MyApp.moveTextureTask`: the event
counter, stimulus counter, baseline flag (lines 53-55), and the card and
window attributes the task writes. -/
structure MyAppState where
  event_change_num : Nat
  stim_num : Int
  baseline_stim : Bool
  card_color : ℚ × ℚ × ℚ × ℚ
  card_has_texture : Bool
  card_angle : ℚ
  card_tex_pos : ℚ
  title : String
deriving DecidableEq, Repr

/-- The stimulus-on branch of the event change (lines 87-92): increment
`stim_num`, make the card white and textured, and set its rotation to
`angles[self.stim_num]` (IndexError when `stim_num` runs past `angles`). -/
def myApp_stim_on (env : MyAppEnv) (s : MyAppState) : Except PsError MyAppState :=
  match pyGet env.angles (s.stim_num + 1) with
  | none => .error .indexError
  | some ang =>
    .ok { s with stim_num := s.stim_num + 1, card_color := (1, 1, 1, 1),
                 card_has_texture := true, card_angle := ang }

/-- The stimulus-off branch of the event change (lines 93-95): restore the
background color and clear the texture stage. -/
def myApp_stim_off (s : MyAppState) : MyAppState :=
  { s with card_color := bgcolor, card_has_texture := false }

/-- Lines 84-97 of `moveTextureTask`, given the already-fetched timestamp
`ect = event_change_times[self.event_change_num]`: when `task.time` has
reached it (and the counter is below `num_event_changes`, which equals
`len(event_change_times)` by line 43), run the appropriate branch, toggle
`baseline_stim` and advance `event_change_num`. -/
def myApp_advance (env : MyAppEnv) (t ect : ℚ) (s : MyAppState) :
    Except PsError MyAppState :=
  if ect ≤ t then
    if s.event_change_num < env.event_change_times.length then
      match (if s.baseline_stim then myApp_stim_on env s else .ok (myApp_stim_off s)) with
      | .error e => .error e
      | .ok s' =>
        .ok { s' with baseline_stim := ! s'.baseline_stim,
                      event_change_num := s'.event_change_num + 1 }
    else .ok s
  else .ok s

/-- Lines 99-101 of `moveTextureTask`: while a stimulus is showing, shift
the texture to `task.time * shift_velocities[self.stim_num]`. -/
def myApp_shift (env : MyAppEnv) (t : ℚ) (s : MyAppState) :
    Except PsError MyAppState :=
  if s.baseline_stim then .ok s
  else
    match pyGet env.shift_velocities s.stim_num with
    | none => .error .indexError
    | some v => .ok { s with card_tex_pos := t * v }

/-- Lines 103-109 of `moveTextureTask`: keep running (`Task.cont`) until
`task.time` passes `event_change_times[-1]`, then set the done title and
return `Task.done`. -/
def myApp_finish (env : MyAppEnv) (t : ℚ) (s : MyAppState) :
    Except PsError (MyAppState × TaskResult) :=
  match env.event_change_times.getLast? with
  | none => .error .indexError
  | some last =>
    if t ≤ last then .ok (s, .cont)
    else .ok ({ s with title := "Full field: done" }, .done)

/-- `MyApp.moveTextureTask` (lines 83-109): fetch
`event_change_times[self.event_change_num]` (IndexError when the counter
has run past the list), run the event-change step, the texture shift, and
the continue/done decision, in source order. -/
def moveTextureTask (env : MyAppEnv) (t : ℚ) (s : MyAppState) :
    Except PsError (MyAppState × TaskResult) :=
  match env.event_change_times[s.event_change_num]? with
  | none => .error .indexError
  | some ect =>
    match myApp_advance env t ect s with
    | .error e => .error e
    | .ok s1 =>
      match myApp_shift env t s1 with
      | .error e => .error e
      | .ok s2 => myApp_finish env t s2

/-- Iterated invocation of `moveTextureTask` on a list of frame times. -/
def runMoveTextureTask (env : MyAppEnv) : List ℚ → MyAppState → Except PsError MyAppState
  | [], s => .ok s
  | t :: ts, s =>
    match moveTextureTask env t s with
    | .error e => .error e
    | .ok (s', _) => runMoveTextureTask env ts s'

/-! ## `FullFieldDriftExperiment` (`stimulus_classes.py`, lines 345-453)

The experiment structure passed to `__init__` and the per-stimulus
parameter dictionaries become an environment record; the mutable
attributes become a state record.  `texture_function(**kwargs)` is a
caller-supplied numpy texture generator, so each stimulus-parameter entry
records the dtype and ndim of the array it produces for that entry's
kwargs.  The tasks read the module-level global `event_change_times` for
their stop condition (lines 392 and 444); in the module's own `__main__`
experiment that global is the same list stored in
`self.event_change_times`, and the environment keeps the single list. -/

/-- The dtype and number of dimensions of a generated texture array. -/
structure TexSpec where
  dtype : NpDtype
  ndims : Nat
deriving DecidableEq, Repr

/-- One entry of the `stim_params` list: its `'angle'`, `'velocity'`, and
the shape of the texture array `texture_function(**entry['kwargs'])`
produces. -/
structure FFDEStim where
  angle : ℚ
  velocity : ℚ
  tex : TexSpec
deriving DecidableEq, Repr

/-- The experiment data read by the two tasks. -/
structure FFDEEnv where
  events : List Int
  event_change_times : List ℚ
  stim_params : List FFDEStim
deriving DecidableEq, Repr

/-- The mutable state touched by the two tasks: `current_event_num`
(line 356), whether `self.texture_stage` has been created yet (it is
first assigned at line 431; accessing it before that raises
AttributeError), and the card and window attributes the tasks write. -/
structure FFDEState where
  current_event_num : Nat
  has_texture_stage : Bool
  card_color : ℚ × ℚ × ℚ × ℚ
  card_has_texture : Bool
  card_angle : ℚ
  card_tex_pos : ℚ
  title : String
deriving DecidableEq, Repr

/-- The `current_event_ind` property (lines 378-382):
`self.events[self.current_event_num]`. -/
def current_event_ind (env : FFDEEnv) (s : FFDEState) : Option Int :=
  env.events[s.current_event_num]?

/-- Observer for the baseline/stimulus state of the experiment: the
docstring of `current_event_ind` calls event value -1 "baseline", and the
branch at line 395 shows the baseline card exactly when the current event
value is -1. -/
def FFDE_isBaseline (env : FFDEEnv) (s : FFDEState) : Bool :=
  (env.events.getD s.current_event_num 0) == -1

/-- The events list alternates between baseline (-1) and stimulus at
position `i`: exactly one of `events[i]`, `events[i+1]` is -1 (read with
the same default as `FFDE_isBaseline`). -/
def FFDE_alternates_at (env : FFDEEnv) (i : Nat) : Prop :=
  (env.events.getD i 0 = -1) ↔ ¬ (env.events.getD (i + 1) 0 = -1)

/-- Lines 395-436 of `set_texture_task`, after `current_event_num` has
been incremented (`s1` is the incremented state): read the new
`current_event_ind` and either show the baseline card (event value -1:
restore `bgcolor`, clear the texture stage — AttributeError when no
texture stage exists yet — and retitle) or build the new stimulus texture
(look up `stim_params[ind]`, check its dtype and ndims — ValueError on
unsupported ones — then show the textured card at the stimulus angle and
retitle). -/
def ffde_apply_event (env : FFDEEnv) (s1 : FFDEState) : Except PsError FFDEState :=
  match env.events[s1.current_event_num]? with
  | none => .error .indexError
  | some ind =>
    if ind = -1 then
      if s1.has_texture_stage then
        .ok { s1 with card_color := bgcolor, card_has_texture := false,
                      title := "FFDE " ++ toString s1.current_event_num ++ ": baseline" }
      else .error .attributeError
    else
      match pyGet env.stim_params ind with
      | none => .error .indexError
      | some sp =>
        match set_texture_component_type sp.tex.dtype with
        | .error e => .error e
        | .ok _ =>
          match set_texture_format sp.tex.ndims with
          | .error e => .error e
          | .ok _ =>
            .ok { s1 with has_texture_stage := true, card_color := (1, 1, 1, 1),
                          card_has_texture := true, card_angle := sp.angle,
                          title := "FFDE " ++ toString s1.current_event_num ++ ": "
                                     ++ toString ind }

/-- Lines 393-436 of `set_texture_task`, given the already-fetched
timestamp `ect = self.event_change_times[self.current_event_num]`: when
`task.time` has reached it, advance `current_event_num` by one and apply
the new event; otherwise leave the state untouched. -/
def ffde_advance (env : FFDEEnv) (t ect : ℚ) (s : FFDEState) :
    Except PsError FFDEState :=
  if ect ≤ t then
    ffde_apply_event env { s with current_event_num := s.current_event_num + 1 }
  else .ok s

/-- `FullFieldDriftExperiment.set_texture_task` (lines 390-440): while
`task.time` is at most the last change time, run the event-change step
and return `task.cont`; past the last change time return `task.done`
without touching the state. -/
def set_texture_task (env : FFDEEnv) (t : ℚ) (s : FFDEState) :
    Except PsError (FFDEState × TaskResult) :=
  match env.event_change_times.getLast? with
  | none => .error .indexError
  | some last =>
    if t ≤ last then
      match env.event_change_times[s.current_event_num]? with
      | none => .error .indexError
      | some ect =>
        match ffde_advance env t ect s with
        | .error e => .error e
        | .ok s2 => .ok (s2, .cont)
    else .ok (s, .done)

/-- `FullFieldDriftExperiment.move_texture_task` (lines 442-453): while
`task.time` is at most the last change time, shift the current stimulus
texture (when the current event is not baseline) and return `task.cont`;
past it, set the done title and return `task.done`. -/
def move_texture_task (env : FFDEEnv) (t : ℚ) (s : FFDEState) :
    Except PsError (FFDEState × TaskResult) :=
  match env.event_change_times.getLast? with
  | none => .error .indexError
  | some last =>
    if t ≤ last then
      match current_event_ind env s with
      | none => .error .indexError
      | some ind =>
        if ind ≠ -1 then
          match pyGet env.stim_params ind with
          | none => .error .indexError
          | some sp =>
            if s.has_texture_stage then
              .ok ({ s with card_tex_pos := -t * sp.velocity }, .cont)
            else .error .attributeError
        else .ok (s, .cont)
    else .ok ({ s with title := "FFDE Done" }, .done)

/-- Iterated invocation of `set_texture_task` on a list of frame times. -/
def runSetTextureTask (env : FFDEEnv) : List ℚ → FFDEState → Except PsError FFDEState
  | [], s => .ok s
  | t :: ts, s =>
    match set_texture_task env t s with
    | .error e => .error e
    | .ok (s', _) => runSetTextureTask env ts s'

deriving instance DecidableEq for Except

/-! ## Concrete example data

Small environments and states used to evaluate the embedded tasks on
concrete inputs. -/

/-- A baseline-angle stimulus entry with a supported (uint8, 2-d) texture. -/
def exStim0 : FFDEStim :=
  { angle := 0, velocity := 0, tex := { dtype := .uint8, ndims := 2 } }

/-- A second stimulus entry with a supported (uint8, 2-d) texture. -/
def exStim1 : FFDEStim :=
  { angle := 7, velocity := 0, tex := { dtype := .uint8, ndims := 2 } }

/-- A stimulus entry whose texture function returns an unsupported dtype. -/
def exStimBadDtype : FFDEStim :=
  { angle := 7, velocity := 0, tex := { dtype := .float64, ndims := 2 } }

/-- A stimulus entry whose texture function returns a 4-d array. -/
def exStimBadNdims : FFDEStim :=
  { angle := 7, velocity := 0, tex := { dtype := .uint8, ndims := 4 } }

/-- A small concrete experiment: alternating events `[-1, 1, -1]` and
change times `[1, 2]`. -/
def exEnv : FFDEEnv :=
  { events := [-1, 1, -1], event_change_times := [1, 2],
    stim_params := [exStim0, exStim1] }

/-- `exEnv` with the second stimulus producing an unsupported dtype. -/
def exEnvBadDtype : FFDEEnv := { exEnv with stim_params := [exStim0, exStimBadDtype] }

/-- `exEnv` with the second stimulus producing a 4-d texture. -/
def exEnvBadNdims : FFDEEnv := { exEnv with stim_params := [exStim0, exStimBadNdims] }

/-- The initial `FullFieldDriftExperiment` state (lines 356, 366, 373):
event counter 0, no texture stage yet, background-colored card. -/
def exState0 : FFDEState :=
  { current_event_num := 0, has_texture_stage := false, card_color := bgcolor,
    card_has_texture := false, card_angle := 0, card_tex_pos := 0,
    title := "FFDE Initializing" }

/-- The state after the first event change of `exEnv` (stimulus 1 shown). -/
def exState1 : FFDEState :=
  { current_event_num := 1, has_texture_stage := true, card_color := (1, 1, 1, 1),
    card_has_texture := true, card_angle := 7, card_tex_pos := 0,
    title := "FFDE 1: 1" }

/-- `exState0` with the done title set by `move_texture_task`. -/
def exStateDone : FFDEState := { exState0 with title := "FFDE Done" }

/-- A concrete `MyApp` environment with change times `[1, 2]`. -/
def exMyEnv : MyAppEnv :=
  { event_change_times := [1, 2], angles := [10, 20], shift_velocities := [1, 1] }

/-- A `MyApp` environment whose first change time lies past the last one. -/
def exMyEnvLate : MyAppEnv :=
  { event_change_times := [10, 2], angles := [10, 20], shift_velocities := [1, 1] }

/-- The initial `MyApp` state (lines 53-60, 73-77). -/
def exMyBase : MyAppState :=
  { event_change_num := 0, stim_num := -1, baseline_stim := true,
    card_color := bgcolor, card_has_texture := false, card_angle := 20,
    card_tex_pos := 0, title := "Full field: running" }

/-- A `MyApp` state in the middle of showing stimulus 0. -/
def exMyStim : MyAppState :=
  { exMyBase with
    baseline_stim := false,
    stim_num := 0,
    card_color := (1, 1, 1, 1),
    card_has_texture := true,
    card_angle := 10 }

/-- `exMyStim` after the event change that turns the stimulus off. -/
def exMyAfterOff : MyAppState :=
  { exMyStim with
    card_color := bgcolor,
    card_has_texture := false,
    baseline_stim := true,
    event_change_num := 1 }

/-- `exMyBase` with the done title set by `moveTextureTask`. -/
def exMyDone : MyAppState := { exMyBase with title := "Full field: done" }

/-! ## Helper lemmas -/

/-- The square wave only takes the values 1 and -1. -/
theorem scipySquare_pm (t : ℚ) : scipySquare t = 1 ∨ scipySquare t = -1 := by
  simp only [scipySquare]
  split
  · exact Or.inl rfl
  · exact Or.inr rfl

theorem cumsum_length (l : List ℚ) : (cumsum l).length = l.length := by
  simp [cumsum, List.length_tail, List.length_scanl]

theorem event_durations_of_nil_length (ys : List ℚ) :
    (event_durations_of [] ys).length = ys.length := by
  induction ys with
  | nil => rfl
  | cons y ys ih =>
    simp only [event_durations_of, zipLongest, List.map_cons, List.flatten_cons,
      List.length_append] at ih ⊢
    simp at ih ⊢
    omega

theorem event_durations_of_length (xs ys : List ℚ) :
    (event_durations_of xs ys).length = xs.length + ys.length := by
  induction xs generalizing ys with
  | nil => simpa using event_durations_of_nil_length ys
  | cons x xs ih =>
    cases ys with
    | nil =>
      have h := ih []
      simp only [event_durations_of, zipLongest, List.map_cons, List.flatten_cons,
        List.length_append] at h ⊢
      simp at h ⊢
      omega
    | cons y ys =>
      have h := ih ys
      simp only [event_durations_of, zipLongest, List.map_cons, List.flatten_cons,
        List.length_append] at h ⊢
      simp at h ⊢
      omega

theorem maskAt_left (ts br r c : Nat) (hr : r < ts) (hc : c < ts) :
    maskAt (left_mask_array ts br) r c = if ts / 2 - br ≤ c then 0 else 255 := by
  simp [maskAt, left_mask_array, List.getD_eq_getElem?_getD, List.getElem?_replicate,
    hr, hc, List.getElem?_range hc]

theorem maskAt_right (ts br r c : Nat) (hr : r < ts) (hc : c < ts) :
    maskAt (right_mask_array ts br) r c = if c < ts / 2 + br then 0 else 255 := by
  simp [maskAt, right_mask_array, List.getD_eq_getElem?_getD, List.getElem?_replicate,
    hr, hc, List.getElem?_range hc]

/-! ## Claims C6, C7, C8, C9, C10 -/

/-- C6: the texture generation functions are deterministic pure functions
of their inputs: two calls to `squareWave`/`square8bit` with equal input
array and equal frequency return element-wise equal arrays, and the
embedded functions take no input other than `(X, freq)`. -/
theorem texture_generation_deterministic :
    ∀ (X Y : List (List ℚ)) (f g : ℚ), X = Y → f = g →
      squareWave X f = squareWave Y g ∧ square8bit X f = square8bit Y g := by
  intro X Y f g hX hf
  subst hX
  subst hf
  exact ⟨rfl, rfl⟩

/-- Witness for C6 at a concrete input. -/
theorem texture_generation_deterministic_witness :
    squareWave [[0]] 1 = squareWave [[0]] 1 ∧ square8bit [[0]] 1 = square8bit [[0]] 1 :=
  texture_generation_deterministic [[0]] [[0]] 1 1 rfl rfl

/-- C7: `square8bit(X, freq)` returns a byte array (every entry reduced
mod 256 by the uint8 cast) with the same shape as `X` in which every
element is 0 or 255, the ±1 square-wave levels mapped through
`(v+1)*127.5`.  Entries are addressed with a default of 0 so the value
property is stated without membership hypotheses. -/
theorem square8bit_shape_and_values :
    ∀ (X : List (List ℚ)) (freq : ℚ),
      (square8bit X freq).length = X.length ∧
      (∀ i : Nat, ((square8bit X freq).getD i []).length = (X.getD i []).length) ∧
      (∀ i j : Nat, ((square8bit X freq).getD i []).getD j 0 = 0 ∨
        ((square8bit X freq).getD i []).getD j 0 = 255) := by
  intro X freq
  refine ⟨by simp [square8bit, squareWave], ?_, ?_⟩
  · intro i
    simp only [square8bit, squareWave, List.map_map, List.getD_eq_getElem?_getD,
      List.getElem?_map]
    cases h : X[i]? <;> simp
  · intro i j
    simp only [square8bit, squareWave, List.getD_eq_getElem?_getD, List.getElem?_map]
    cases h : X[i]? with
    | none => simp
    | some row =>
      simp only [Option.map_some', Option.getD_some]
      rw [List.getElem?_map, List.getElem?_map]
      cases h2 : row[j]? with
      | none => simp
      | some x =>
        simp only [Option.map_some', Option.getD_some]
        rcases scipySquare_pm (x * freq) with h3 | h3 <;> rw [h3]
        · right
          have e : ((1 : ℚ) + 1) * (255 / 2) = 255 := by norm_num
          rw [npUint8OfRat, e]
          rw [show ((255 : ℚ)) = ((255 : ℤ) : ℚ) by norm_num, Int.floor_intCast]
          rfl
        · left
          have e : ((-1 : ℚ) + 1) * (255 / 2) = 0 := by norm_num
          rw [npUint8OfRat, e]
          rw [show ((0 : ℚ)) = ((0 : ℤ) : ℚ) by norm_num, Int.floor_intCast]
          rfl

/-- C8: for `texture_size > 0` and `0 ≤ band_radius ≤ texture_size//2`,
the `BinocularDrift` mask arrays satisfy: the left mask is 255 exactly for
columns below `texture_size//2 - band_radius` and 0 otherwise, the right
mask is 255 exactly for columns at or above `texture_size//2 + band_radius`
and 0 otherwise, no pixel is 255 in both, and the central band of width
`2*band_radius` is 0 in both. -/
theorem binocular_mask_partition :
    ∀ ts br r c : Nat, 0 < ts → br ≤ ts / 2 → r < ts → c < ts →
      ((maskAt (left_mask_array ts br) r c = 255 ↔ c < ts / 2 - br) ∧
       (maskAt (left_mask_array ts br) r c = 0 ↔ ts / 2 - br ≤ c) ∧
       (maskAt (right_mask_array ts br) r c = 255 ↔ ts / 2 + br ≤ c) ∧
       (maskAt (right_mask_array ts br) r c = 0 ↔ c < ts / 2 + br) ∧
       ¬ (maskAt (left_mask_array ts br) r c = 255 ∧
          maskAt (right_mask_array ts br) r c = 255) ∧
       (ts / 2 - br ≤ c → c < ts / 2 + br →
         maskAt (left_mask_array ts br) r c = 0 ∧
         maskAt (right_mask_array ts br) r c = 0)) := by
  intro ts br r c hts hbr hr hc
  rw [maskAt_left ts br r c hr hc, maskAt_right ts br r c hr hc]
  by_cases hA : ts / 2 - br ≤ c <;> by_cases hB : c < ts / 2 + br <;>
    simp [hA, hB] <;> omega

/-- Witness for C8 at `texture_size = 8`, `band_radius = 2`, pixel (0, 4). -/
theorem binocular_mask_partition_witness :
    ((maskAt (left_mask_array 8 2) 0 4 = 255 ↔ 4 < 8 / 2 - 2) ∧
     (maskAt (left_mask_array 8 2) 0 4 = 0 ↔ 8 / 2 - 2 ≤ 4) ∧
     (maskAt (right_mask_array 8 2) 0 4 = 255 ↔ 8 / 2 + 2 ≤ 4) ∧
     (maskAt (right_mask_array 8 2) 0 4 = 0 ↔ 4 < 8 / 2 + 2) ∧
     ¬ (maskAt (left_mask_array 8 2) 0 4 = 255 ∧
        maskAt (right_mask_array 8 2) 0 4 = 255) ∧
     (8 / 2 - 2 ≤ 4 → 4 < 8 / 2 + 2 →
       maskAt (left_mask_array 8 2) 0 4 = 0 ∧
       maskAt (right_mask_array 8 2) 0 4 = 0)) :=
  binocular_mask_partition 8 2 0 4 (by decide) (by decide) (by decide) (by decide)

/-- C9: the coordinate conversions of `BinocularDrift` are mutually
inverse: `uv2ndc (ndc2uv v) = v` and `ndc2uv (uv2ndc v) = v` (`ndc2uv`
halves, `uv2ndc` doubles). -/
theorem ndc_uv_inverse : ∀ v : ℚ, uv2ndc (ndc2uv v) = v ∧ ndc2uv (uv2ndc v) = v := by
  intro v
  constructor <;> (simp only [ndc2uv, uv2ndc]; ring)

/-- C10: interleaving `n+1` inter-stimulus times with `n` stimulus
durations via `zip_longest` yields `2n+1` event durations, and the
cumulative sums with the last element dropped yield exactly `2n` event
change times; in particular the module's assertions
`len(inter_stimulus_times) == num_stim+1` and
`num_event_changes == num_stim*2` hold, both in general and for the
module's concrete values. -/
theorem event_timeline_lengths :
    (∀ (n : Nat) (stim inter : List ℚ), 1 ≤ n → stim.length = n →
       inter.length = n + 1 →
       (event_durations_of inter stim).length = 2 * n + 1 ∧
       (event_change_times_of inter stim).length = 2 * n ∧
       inter.length = stim.length + 1 ∧
       (event_change_times_of inter stim).length = stim.length * 2) ∧
    inter_stimulus_times.length = num_stim + 1 ∧
    num_event_changes = num_stim * 2 := by
  refine ⟨?_, by decide, by decide⟩
  intro n stim inter hn hs hi
  have h1 : (event_durations_of inter stim).length = 2 * n + 1 := by
    rw [event_durations_of_length]
    omega
  have h2 : (event_change_times_of inter stim).length = 2 * n := by
    unfold event_change_times_of
    rw [List.length_dropLast, cumsum_length, event_durations_of_length]
    omega
  exact ⟨h1, h2, by omega, by omega⟩

/-- Witness for C10 at `n = 1`, `stim = [1]`, `inter = [1, 1]`. -/
theorem event_timeline_lengths_witness :
    (event_durations_of [1, 1] [1]).length = 2 * 1 + 1 ∧
    (event_change_times_of [1, 1] [1]).length = 2 * 1 ∧
    ([1, 1] : List ℚ).length = ([1] : List ℚ).length + 1 ∧
    (event_change_times_of [1, 1] [1]).length = ([1] : List ℚ).length * 2 :=
  event_timeline_lengths.1 1 [1] [1, 1] (by decide) (by decide) (by decide)

/-! ## Helper lemmas for the `MyApp` stepper -/

theorem myApp_stim_on_fields {env : MyAppEnv} {s s' : MyAppState}
    (h : myApp_stim_on env s = .ok s') :
    s'.event_change_num = s.event_change_num ∧ s'.baseline_stim = s.baseline_stim ∧
      s'.title = s.title := by
  unfold myApp_stim_on at h
  split at h
  · cases h
  · cases h
    exact ⟨rfl, rfl, rfl⟩

theorem myApp_advance_hit {env : MyAppEnv} {t ect : ℚ} {s s' : MyAppState}
    (hle : ect ≤ t) (hlt : s.event_change_num < env.event_change_times.length)
    (h : myApp_advance env t ect s = .ok s') :
    s'.event_change_num = s.event_change_num + 1 ∧
      s'.baseline_stim = (! s.baseline_stim) ∧ s'.title = s.title := by
  unfold myApp_advance at h
  rw [if_pos hle, if_pos hlt] at h
  cases hb : s.baseline_stim with
  | false =>
    rw [hb] at h
    simp only [Bool.false_eq_true, if_false] at h
    cases h
    simp [myApp_stim_off, hb]
  | true =>
    rw [hb] at h
    simp only [if_true] at h
    split at h
    · cases h
    · rename_i s0 hon
      cases h
      obtain ⟨h1, h2, h3⟩ := myApp_stim_on_fields hon
      exact ⟨by simp [h1], by simp [h2, hb], h3⟩

theorem myApp_advance_miss {env : MyAppEnv} {t ect : ℚ} {s : MyAppState}
    (hgt : t < ect) : myApp_advance env t ect s = .ok s := by
  unfold myApp_advance
  rw [if_neg (not_le.mpr hgt)]

theorem myApp_advance_mono {env : MyAppEnv} {t ect : ℚ} {s s' : MyAppState}
    (h : myApp_advance env t ect s = .ok s') :
    s.event_change_num ≤ s'.event_change_num ∧
      (s.event_change_num < s'.event_change_num → ect ≤ t) := by
  by_cases hle : ect ≤ t
  · by_cases hlt : s.event_change_num < env.event_change_times.length
    · obtain ⟨h1, -, -⟩ := myApp_advance_hit hle hlt h
      exact ⟨by omega, fun _ => hle⟩
    · unfold myApp_advance at h
      rw [if_pos hle, if_neg hlt] at h
      cases h
      exact ⟨Nat.le_refl _, fun hh => absurd hh (Nat.lt_irrefl _)⟩
  · rw [myApp_advance_miss (not_le.mp hle)] at h
    cases h
    exact ⟨Nat.le_refl _, fun hh => absurd hh (Nat.lt_irrefl _)⟩

theorem myApp_shift_fields {env : MyAppEnv} {t : ℚ} {s s' : MyAppState}
    (h : myApp_shift env t s = .ok s') :
    s'.event_change_num = s.event_change_num ∧ s'.baseline_stim = s.baseline_stim ∧
      s'.title = s.title := by
  unfold myApp_shift at h
  split at h
  · cases h
    exact ⟨rfl, rfl, rfl⟩
  · split at h
    · cases h
    · cases h
      exact ⟨rfl, rfl, rfl⟩

theorem myApp_finish_cases {env : MyAppEnv} {t : ℚ} {s : MyAppState}
    {p : MyAppState × TaskResult} (h : myApp_finish env t s = .ok p) :
    ∃ last, env.event_change_times.getLast? = some last ∧
      ((t ≤ last ∧ p = (s, .cont)) ∨
       (last < t ∧ p = ({ s with title := "Full field: done" }, .done))) := by
  unfold myApp_finish at h
  split at h
  · cases h
  · rename_i last hl
    refine ⟨last, hl, ?_⟩
    split at h
    · rename_i hle
      cases h
      exact Or.inl ⟨hle, rfl⟩
    · rename_i hle
      cases h
      exact Or.inr ⟨not_le.mp hle, rfl⟩

theorem moveTextureTask_decomp {env : MyAppEnv} {t : ℚ} {s s' : MyAppState}
    {r : TaskResult} (h : moveTextureTask env t s = .ok (s', r)) :
    ∃ ect s1 s2, env.event_change_times[s.event_change_num]? = some ect ∧
      myApp_advance env t ect s = .ok s1 ∧ myApp_shift env t s1 = .ok s2 ∧
      myApp_finish env t s2 = .ok (s', r) := by
  unfold moveTextureTask at h
  split at h
  · cases h
  · rename_i ect h1
    split at h
    · cases h
    · rename_i s1 h2
      split at h
      · cases h
      · rename_i s2 h3
        exact ⟨ect, s1, s2, h1, h2, h3, h⟩

theorem moveTextureTask_mono {env : MyAppEnv} {t : ℚ} {s s' : MyAppState}
    {r : TaskResult} (h : moveTextureTask env t s = .ok (s', r)) :
    s.event_change_num ≤ s'.event_change_num ∧
      (s.event_change_num < s'.event_change_num →
        ∃ ect, env.event_change_times[s.event_change_num]? = some ect ∧ ect ≤ t) := by
  obtain ⟨ect, s1, s2, h1, h2, h3, h4⟩ := moveTextureTask_decomp h
  obtain ⟨hm, himp⟩ := myApp_advance_mono h2
  obtain ⟨e1, -, -⟩ := myApp_shift_fields h3
  obtain ⟨last, -, hc⟩ := myApp_finish_cases h4
  have e2 : s'.event_change_num = s2.event_change_num := by
    rcases hc with ⟨-, hp⟩ | ⟨-, hp⟩ <;>
      rw [show s' = ((s', r)).1 from rfl, hp]
  rw [e2, e1]
  exact ⟨hm, fun hlt => ⟨ect, h1, himp hlt⟩⟩

theorem runMoveTextureTask_mono {env : MyAppEnv} :
    ∀ (ts : List ℚ) (s s' : MyAppState), runMoveTextureTask env ts s = .ok s' →
      s.event_change_num ≤ s'.event_change_num := by
  intro ts
  induction ts with
  | nil =>
    intro s s' h
    cases h
    exact Nat.le_refl _
  | cons t ts ih =>
    intro s s' h
    unfold runMoveTextureTask at h
    split at h
    · cases h
    · rename_i s1 r1 heq
      exact le_trans (moveTextureTask_mono heq).1 (ih s1 s' h)

/-! ## Helper lemmas for the `FullFieldDriftExperiment` tasks -/

theorem ffde_apply_event_num {env : FFDEEnv} {s1 s2 : FFDEState}
    (h : ffde_apply_event env s1 = .ok s2) :
    s2.current_event_num = s1.current_event_num := by
  unfold ffde_apply_event at h
  split at h
  · cases h
  · split at h
    · split at h
      · cases h
        rfl
      · cases h
    · split at h
      · cases h
      · split at h
        · cases h
        · split at h
          · cases h
          · cases h
            rfl

theorem ffde_apply_event_reads {env : FFDEEnv} {s1 s2 : FFDEState}
    (h : ffde_apply_event env s1 = .ok s2) :
    ∃ ind, env.events[s1.current_event_num]? = some ind := by
  unfold ffde_apply_event at h
  split at h
  · cases h
  · rename_i ind hind
    exact ⟨ind, hind⟩

theorem ffde_advance_hit {env : FFDEEnv} {t ect : ℚ} {s s1 : FFDEState}
    (hle : ect ≤ t) (h : ffde_advance env t ect s = .ok s1) :
    s1.current_event_num = s.current_event_num + 1 := by
  unfold ffde_advance at h
  rw [if_pos hle] at h
  exact ffde_apply_event_num h

theorem ffde_advance_miss {env : FFDEEnv} {t ect : ℚ} {s : FFDEState}
    (hgt : t < ect) : ffde_advance env t ect s = .ok s := by
  unfold ffde_advance
  rw [if_neg (not_le.mpr hgt)]

theorem ffde_advance_mono {env : FFDEEnv} {t ect : ℚ} {s s1 : FFDEState}
    (h : ffde_advance env t ect s = .ok s1) :
    s.current_event_num ≤ s1.current_event_num ∧
      (s.current_event_num < s1.current_event_num → ect ≤ t) := by
  by_cases hle : ect ≤ t
  · have h1 := ffde_advance_hit hle h
    exact ⟨by omega, fun _ => hle⟩
  · rw [ffde_advance_miss (not_le.mp hle)] at h
    cases h
    exact ⟨Nat.le_refl _, fun hh => absurd hh (Nat.lt_irrefl _)⟩

theorem set_texture_task_decomp {env : FFDEEnv} {t : ℚ} {s s' : FFDEState}
    {r : TaskResult} (h : set_texture_task env t s = .ok (s', r)) :
    ∃ last, env.event_change_times.getLast? = some last ∧
      ((t ≤ last ∧ ∃ ect, env.event_change_times[s.current_event_num]? = some ect ∧
          ffde_advance env t ect s = .ok s' ∧ r = .cont) ∨
       (last < t ∧ s' = s ∧ r = .done)) := by
  unfold set_texture_task at h
  split at h
  · cases h
  · rename_i last hl
    refine ⟨last, hl, ?_⟩
    split at h
    · rename_i hle
      split at h
      · cases h
      · rename_i ect hect
        split at h
        · cases h
        · rename_i s2 hadv
          cases h
          exact Or.inl ⟨hle, ect, hect, hadv, rfl⟩
    · rename_i hle
      cases h
      exact Or.inr ⟨not_le.mp hle, rfl, rfl⟩

theorem set_texture_task_mono {env : FFDEEnv} {t : ℚ} {s s' : FFDEState}
    {r : TaskResult} (h : set_texture_task env t s = .ok (s', r)) :
    s.current_event_num ≤ s'.current_event_num ∧
      (s.current_event_num < s'.current_event_num →
        ∃ ect, env.event_change_times[s.current_event_num]? = some ect ∧ ect ≤ t) := by
  obtain ⟨last, -, hc⟩ := set_texture_task_decomp h
  rcases hc with ⟨-, ect, hect, hadv, -⟩ | ⟨-, rfl, -⟩
  · obtain ⟨hm, himp⟩ := ffde_advance_mono hadv
    exact ⟨hm, fun hlt => ⟨ect, hect, himp hlt⟩⟩
  · exact ⟨Nat.le_refl _, fun hh => absurd hh (Nat.lt_irrefl _)⟩

theorem runSetTextureTask_mono {env : FFDEEnv} :
    ∀ (ts : List ℚ) (s s' : FFDEState), runSetTextureTask env ts s = .ok s' →
      s.current_event_num ≤ s'.current_event_num := by
  intro ts
  induction ts with
  | nil =>
    intro s s' h
    cases h
    exact Nat.le_refl _
  | cons t ts ih =>
    intro s s' h
    unfold runSetTextureTask at h
    split at h
    · cases h
    · rename_i s1 r1 heq
      exact le_trans (set_texture_task_mono heq).1 (ih s1 s' h)

/-- During a hit the baseline/stimulus state toggles whenever the events
list alternates at the old position. -/
theorem ffde_advance_toggle {env : FFDEEnv} {t ect : ℚ} {s s1 : FFDEState}
    (hle : ect ≤ t) (h : ffde_advance env t ect s = .ok s1)
    (halt : FFDE_alternates_at env s.current_event_num) :
    FFDE_isBaseline env s1 = (! FFDE_isBaseline env s) := by
  have hnum := ffde_advance_hit hle h
  unfold FFDE_isBaseline
  unfold FFDE_alternates_at at halt
  rw [hnum]
  simp only [List.getD_eq_getElem?_getD] at halt ⊢
  by_cases h1 : env.events[s.current_event_num]?.getD 0 = -1 <;>
    by_cases h2 : env.events[s.current_event_num + 1]?.getD 0 = -1
  · exact absurd h2 (halt.mp h1)
  · simp [h1, h2]
  · simp [h1, h2]
  · exact absurd (halt.mpr h2) h1

theorem move_texture_task_cases {env : FFDEEnv} {t : ℚ} {s s' : FFDEState}
    {r : TaskResult} (h : move_texture_task env t s = .ok (s', r)) :
    ∃ last, env.event_change_times.getLast? = some last ∧
      ((t ≤ last ∧ r = .cont) ∨
       (last < t ∧ r = .done ∧ s' = { s with title := "FFDE Done" })) := by
  unfold move_texture_task at h
  split at h
  · cases h
  · rename_i last hl
    refine ⟨last, hl, ?_⟩
    split at h
    · rename_i hle
      split at h
      · cases h
      · split at h
        · split at h
          · cases h
          · split at h
            · cases h
              exact Or.inl ⟨hle, rfl⟩
            · cases h
        · cases h
          exact Or.inl ⟨hle, rfl⟩
    · rename_i hle
      cases h
      exact Or.inr ⟨not_le.mp hle, rfl, rfl⟩

/-- When the stepper reaches the stimulus branch, `set_texture_task` fails
with the dtype error of the generated texture. -/
theorem set_texture_task_stim_dtype_error {env : FFDEEnv} {t : ℚ} {s : FFDEState}
    {last ect : ℚ} {ind : Int} {sp : FFDEStim} {e : PsError}
    (hlast : env.event_change_times.getLast? = some last) (hle : t ≤ last)
    (hect : env.event_change_times[s.current_event_num]? = some ect) (hadv : ect ≤ t)
    (hind : env.events[s.current_event_num + 1]? = some ind) (hne : ind ≠ -1)
    (hsp : pyGet env.stim_params ind = some sp)
    (hdt : set_texture_component_type sp.tex.dtype = .error e) :
    set_texture_task env t s = .error e := by
  unfold set_texture_task ffde_advance ffde_apply_event
  simp only [hlast, hle, if_true, hect, hadv, hind, hne, hsp, hdt, ite_true, ite_false,
    if_neg, if_pos]

/-- When the stepper reaches the stimulus branch with a supported dtype,
`set_texture_task` fails with the ndims error of the generated texture. -/
theorem set_texture_task_stim_format_error {env : FFDEEnv} {t : ℚ} {s : FFDEState}
    {last ect : ℚ} {ind : Int} {sp : FFDEStim} {ct : TexComponent} {e : PsError}
    (hlast : env.event_change_times.getLast? = some last) (hle : t ≤ last)
    (hect : env.event_change_times[s.current_event_num]? = some ect) (hadv : ect ≤ t)
    (hind : env.events[s.current_event_num + 1]? = some ind) (hne : ind ≠ -1)
    (hsp : pyGet env.stim_params ind = some sp)
    (hdt : set_texture_component_type sp.tex.dtype = .ok ct)
    (hfm : set_texture_format sp.tex.ndims = .error e) :
    set_texture_task env t s = .error e := by
  unfold set_texture_task ffde_advance ffde_apply_event
  simp only [hlast, hle, if_true, hect, hadv, hind, hne, hsp, hdt, hfm, ite_true,
    ite_false, if_neg, if_pos]

/-- Every dtype error of `set_texture_component_type` is a ValueError. -/
theorem set_texture_component_type_error_form {dtype : NpDtype} {e : PsError}
    (h : set_texture_component_type dtype = .error e) : ∃ m, e = .valueError m := by
  cases dtype <;> simp [set_texture_component_type] at h <;> exact ⟨_, h.symm⟩

/-- For an unsupported number of dimensions, `set_texture_format` raises a
ValueError. -/
theorem set_texture_format_error_form {ndims : Nat} (h2 : ndims ≠ 2) (h3 : ndims ≠ 3) :
    ∃ m, set_texture_format ndims = .error (.valueError m) := by
  match ndims with
  | 0 => exact ⟨_, rfl⟩
  | 1 => exact ⟨_, rfl⟩
  | 2 => exact absurd rfl h2
  | 3 => exact absurd rfl h3
  | (n + 4) => exact ⟨_, rfl⟩

/-! ## Claims C1, C2, C3, C4, C5 -/

/-- C1 counterexample: at elapsed time 5 the premises of C1 hold for
`set_texture_task` on the concrete experiment `exEnv` (the change
timestamp at the current index 0 is 1 ≤ 5, and index 0 is in range), yet
the invocation returns with the event-change index unchanged (the outer
`task.time <= event_change_times[-1]` guard fails first), so the index is
not advanced by one as C1 states. -/
theorem stepper_advance_toggle_counterexample :
    exEnv.event_change_times[exState0.current_event_num]? = some 1 ∧
    ((1 : ℚ) ≤ 5) ∧
    set_texture_task exEnv 5 exState0 = .ok (exState0, .done) ∧
    ¬ ((set_texture_task exEnv 5 exState0).map (fun p => p.1.current_event_num) =
        .ok (exState0.current_event_num + 1)) :=
  ⟨by decide, by decide, by decide, by decide⟩

/-- C1 (amended): for `MyApp.moveTextureTask`, whenever the elapsed time
has reached the change timestamp at the current (in-range) index, the
invocation advances the index by exactly one and toggles `baseline_stim`,
and whenever the elapsed time is below that timestamp it leaves both
unchanged.  For `FullFieldDriftExperiment.set_texture_task` the same
holds provided the elapsed time is also at most the last change timestamp
(the task's outer guard); the baseline/stimulus state (current event
value -1 versus not) toggles whenever the events list alternates at the
old position, and when the elapsed time is below the timestamp or beyond
the last change timestamp the state is unchanged. -/
theorem stepper_advance_toggle :
    (∀ (env : MyAppEnv) (t ect : ℚ) (s s' : MyAppState) (r : TaskResult),
       env.event_change_times[s.event_change_num]? = some ect →
       moveTextureTask env t s = .ok (s', r) →
       ((ect ≤ t → s'.event_change_num = s.event_change_num + 1 ∧
           s'.baseline_stim = (! s.baseline_stim)) ∧
        (t < ect → s'.event_change_num = s.event_change_num ∧
           s'.baseline_stim = s.baseline_stim))) ∧
    (∀ (env : FFDEEnv) (t : ℚ) (s s' : FFDEState) (r : TaskResult) (last ect : ℚ),
       env.event_change_times.getLast? = some last →
       env.event_change_times[s.current_event_num]? = some ect →
       set_texture_task env t s = .ok (s', r) →
       ((t ≤ last → ect ≤ t →
           s'.current_event_num = s.current_event_num + 1 ∧
           (FFDE_alternates_at env s.current_event_num →
             FFDE_isBaseline env s' = (! FFDE_isBaseline env s))) ∧
        (t < ect → s' = s) ∧
        (last < t → s' = s))) := by
  constructor
  · intro env t ect s s' r hect hstep
    obtain ⟨ect', s1, s2, h1, h2, h3, h4⟩ := moveTextureTask_decomp hstep
    have he : ect' = ect := by
      rw [hect] at h1
      exact (Option.some.inj h1).symm
    subst he
    obtain ⟨e1n, e1b, -⟩ := myApp_shift_fields h3
    obtain ⟨last, -, hfin⟩ := myApp_finish_cases h4
    have hs' : s'.event_change_num = s2.event_change_num ∧
        s'.baseline_stim = s2.baseline_stim := by
      rcases hfin with ⟨-, hp⟩ | ⟨-, hp⟩ <;> injection hp with hp1 hp2 <;> subst hp1 <;>
        exact ⟨rfl, rfl⟩
    constructor
    · intro hle
      obtain ⟨hlt, -⟩ := List.getElem?_eq_some.mp hect
      obtain ⟨a1, a2, -⟩ := myApp_advance_hit hle hlt h2
      rw [hs'.1, e1n, a1, hs'.2, e1b, a2]
      exact ⟨rfl, rfl⟩
    · intro hgt
      rw [myApp_advance_miss hgt] at h2
      cases h2
      rw [hs'.1, e1n, hs'.2, e1b]
      exact ⟨rfl, rfl⟩
  · intro env t s s' r last ect hlast hect hstep
    obtain ⟨last', hlast', hc⟩ := set_texture_task_decomp hstep
    have hl : last' = last := by
      rw [hlast] at hlast'
      exact (Option.some.inj hlast').symm
    subst hl
    refine ⟨?_, ?_, ?_⟩
    · intro htl hat
      rcases hc with ⟨-, ect', hect', hadv, -⟩ | ⟨hgt, -, -⟩
      · have he : ect' = ect := by
          rw [hect] at hect'
          exact (Option.some.inj hect').symm
        subst he
        exact ⟨ffde_advance_hit hat hadv, fun halt => ffde_advance_toggle hat hadv halt⟩
      · exact absurd htl (not_le.mpr hgt)
    · intro hgt
      rcases hc with ⟨-, ect', hect', hadv, -⟩ | ⟨-, he, -⟩
      · have he : ect' = ect := by
          rw [hect] at hect'
          exact (Option.some.inj hect').symm
        subst he
        rw [ffde_advance_miss hgt] at hadv
        cases hadv
        rfl
      · exact he
    · intro hgt
      rcases hc with ⟨htl, -⟩ | ⟨-, he, -⟩
      · exact absurd htl (not_le.mpr hgt)
      · exact he

/-- Witness for C1 (amended): the event change of `exMyEnv` at time 1
advances `exMyStim` to `exMyAfterOff` and toggles the baseline flag; at
time 0 `exMyBase` is left unchanged; the event change of `exEnv` at
time 1 advances `exState0` to `exState1` and toggles the
baseline/stimulus state. -/
theorem stepper_advance_toggle_witness :
    (exMyAfterOff.event_change_num = exMyStim.event_change_num + 1 ∧
     exMyAfterOff.baseline_stim = (! exMyStim.baseline_stim)) ∧
    (exMyBase.event_change_num = exMyBase.event_change_num ∧
     exMyBase.baseline_stim = exMyBase.baseline_stim) ∧
    (exState1.current_event_num = exState0.current_event_num + 1 ∧
     FFDE_isBaseline exEnv exState1 = (! FFDE_isBaseline exEnv exState0)) := by
  have hMyHit := stepper_advance_toggle.1 exMyEnv 1 1 exMyStim exMyAfterOff .cont
    (by decide) (by decide)
  have hMyMiss := stepper_advance_toggle.1 exMyEnv 0 1 exMyBase exMyBase .cont
    (by decide) (by decide)
  have hF := stepper_advance_toggle.2 exEnv 1 exState0 exState1 .cont 2 1
    (by decide) (by decide) (by decide)
  exact ⟨hMyHit.1 (by decide), hMyMiss.2 (by decide),
    (hF.1 (by decide) (by decide)).1,
    (hF.1 (by decide) (by decide)).2 (by unfold FFDE_alternates_at; decide)⟩

/-- C2: across invocations of either stepper, the event-change index
never decreases (per invocation and along any run with non-decreasing
frame times), and it increases only when the elapsed time has reached the
change timestamp at the old index. -/
theorem event_index_monotone :
    (∀ (env : MyAppEnv) (t : ℚ) (s s' : MyAppState) (r : TaskResult),
       moveTextureTask env t s = .ok (s', r) →
       s.event_change_num ≤ s'.event_change_num ∧
         (s.event_change_num < s'.event_change_num →
           ∃ ect, env.event_change_times[s.event_change_num]? = some ect ∧ ect ≤ t)) ∧
    (∀ (env : MyAppEnv) (ts : List ℚ) (s s' : MyAppState),
       ts.Chain' (· ≤ ·) → runMoveTextureTask env ts s = .ok s' →
       s.event_change_num ≤ s'.event_change_num) ∧
    (∀ (env : FFDEEnv) (t : ℚ) (s s' : FFDEState) (r : TaskResult),
       set_texture_task env t s = .ok (s', r) →
       s.current_event_num ≤ s'.current_event_num ∧
         (s.current_event_num < s'.current_event_num →
           ∃ ect, env.event_change_times[s.current_event_num]? = some ect ∧ ect ≤ t)) ∧
    (∀ (env : FFDEEnv) (ts : List ℚ) (s s' : FFDEState),
       ts.Chain' (· ≤ ·) → runSetTextureTask env ts s = .ok s' →
       s.current_event_num ≤ s'.current_event_num) :=
  ⟨fun _ _ _ _ _ h => moveTextureTask_mono h,
   fun _ ts s s' _ h => runMoveTextureTask_mono ts s s' h,
   fun _ _ _ _ _ h => set_texture_task_mono h,
   fun _ ts s s' _ h => runSetTextureTask_mono ts s s' h⟩

/-- Witness for C2 on concrete invocations and runs. -/
theorem event_index_monotone_witness :
    exMyStim.event_change_num ≤ exMyAfterOff.event_change_num ∧
    exMyBase.event_change_num ≤ exMyBase.event_change_num ∧
    exState0.current_event_num ≤ exState1.current_event_num ∧
    exState0.current_event_num ≤ exState0.current_event_num :=
  ⟨(event_index_monotone.1 exMyEnv 1 exMyStim exMyAfterOff .cont (by decide)).1,
   event_index_monotone.2.1 exMyEnvLate [0] exMyBase exMyBase (List.chain'_singleton 0) (by decide),
   (event_index_monotone.2.2.1 exEnv 1 exState0 exState1 .cont (by decide)).1,
   event_index_monotone.2.2.2 exEnv [5] exState0 exState0 (List.chain'_singleton 5) (by decide)⟩

/-- C3: for every texture dtype other than uint8 and uint16, the
texture-consuming operations raise rather than proceed:
`FullFieldDrift.__init__` and `BinocularDrift.__init__` fail for every
array dimensionality (AttributeError from the unassigned component type
for 2-d/3-d arrays, ValueError otherwise), and
`FullFieldDriftExperiment.set_texture_task` raises its explicit
ValueError whenever its stepper reaches the texture-construction branch
with such a dtype. -/
theorem unsupported_dtype_errors :
    ∀ dtype : NpDtype, dtype ≠ .uint8 → dtype ≠ .uint16 →
      (∀ ndims : Nat, ∃ e, fullFieldDrift_texture_setup dtype ndims = .error e) ∧
      (∀ ndims : Nat, ∃ e, binocularDrift_texture_setup dtype ndims = .error e) ∧
      (∃ m, set_texture_component_type dtype = .error (.valueError m)) ∧
      (∀ (env : FFDEEnv) (t : ℚ) (s : FFDEState) (last ect : ℚ) (ind : Int)
         (sp : FFDEStim),
        env.event_change_times.getLast? = some last → t ≤ last →
        env.event_change_times[s.current_event_num]? = some ect → ect ≤ t →
        env.events[s.current_event_num + 1]? = some ind → ind ≠ -1 →
        pyGet env.stim_params ind = some sp → sp.tex.dtype = dtype →
        ∃ m, set_texture_task env t s = .error (.valueError m)) := by
  have main : ∀ dtype : NpDtype, fullFieldDrift_component_type dtype = none →
      binocularDrift_component_type dtype = none →
      (∃ m0, set_texture_component_type dtype = .error (.valueError m0)) →
      (∀ ndims : Nat, ∃ e, fullFieldDrift_texture_setup dtype ndims = .error e) ∧
      (∀ ndims : Nat, ∃ e, binocularDrift_texture_setup dtype ndims = .error e) ∧
      (∃ m, set_texture_component_type dtype = .error (.valueError m)) ∧
      (∀ (env : FFDEEnv) (t : ℚ) (s : FFDEState) (last ect : ℚ) (ind : Int)
         (sp : FFDEStim),
        env.event_change_times.getLast? = some last → t ≤ last →
        env.event_change_times[s.current_event_num]? = some ect → ect ≤ t →
        env.events[s.current_event_num + 1]? = some ind → ind ≠ -1 →
        pyGet env.stim_params ind = some sp → sp.tex.dtype = dtype →
        ∃ m, set_texture_task env t s = .error (.valueError m)) := by
    intro dtype hff hbd hst
    obtain ⟨m0, hm0⟩ := hst
    refine ⟨?_, ?_, ⟨m0, hm0⟩, ?_⟩
    · intro ndims
      unfold fullFieldDrift_texture_setup
      match ndims with
      | 0 => exact ⟨_, rfl⟩
      | 1 => exact ⟨_, rfl⟩
      | 2 => rw [hff]; exact ⟨_, rfl⟩
      | 3 => rw [hff]; exact ⟨_, rfl⟩
      | (n + 4) => exact ⟨_, rfl⟩
    · intro ndims
      unfold binocularDrift_texture_setup
      match ndims with
      | 0 => exact ⟨_, rfl⟩
      | 1 => exact ⟨_, rfl⟩
      | 2 => rw [hbd]; exact ⟨_, rfl⟩
      | 3 => rw [hbd]; exact ⟨_, rfl⟩
      | (n + 4) => exact ⟨_, rfl⟩
    · intro env t s last ect ind sp hlast hle hect hadv hind hne hsp hdt
      refine ⟨m0, set_texture_task_stim_dtype_error hlast hle hect hadv hind hne hsp ?_⟩
      rw [hdt]
      exact hm0
  intro dtype h8 h16
  cases dtype with
  | uint8 => exact absurd rfl h8
  | uint16 => exact absurd rfl h16
  | float64 => exact main .float64 rfl rfl ⟨_, rfl⟩
  | other => exact main .other rfl rfl ⟨_, rfl⟩

/-- Witness for C3 at dtype float64: the two init validations fail for a
2-d array, the experiment dtype check fails, and `set_texture_task` on
`exEnvBadDtype` at time 1 raises a ValueError. -/
theorem unsupported_dtype_errors_witness :
    (∃ e, fullFieldDrift_texture_setup .float64 2 = .error e) ∧
    (∃ e, binocularDrift_texture_setup .float64 2 = .error e) ∧
    (∃ m, set_texture_component_type .float64 = .error (.valueError m)) ∧
    (∃ m, set_texture_task exEnvBadDtype 1 exState0 = .error (.valueError m)) := by
  have h := unsupported_dtype_errors .float64 (by decide) (by decide)
  exact ⟨h.1 2, h.2.1 2, h.2.2.1,
    h.2.2.2 exEnvBadDtype 1 exState0 2 1 1 exStimBadDtype (by decide) (by decide)
      (by decide) (by decide) (by decide) (by decide) (by decide) rfl⟩

/-- C4: for every array dimensionality other than 2 and 3 the three
texture validations raise a ValueError (for `set_texture_task`, the
dtype-then-ndims check sequence `set_texture_validate`, and the full task
whenever its stepper reaches the texture-construction branch); for
dimensionality 2 or 3 with a supported dtype all three pass. -/
theorem texture_ndim_validation :
    (∀ (dtype : NpDtype) (ndims : Nat), ndims ≠ 2 → ndims ≠ 3 →
       (∃ m, fullFieldDrift_texture_setup dtype ndims = .error (.valueError m)) ∧
       (∃ m, binocularDrift_texture_setup dtype ndims = .error (.valueError m)) ∧
       (∃ m, set_texture_validate dtype ndims = .error (.valueError m))) ∧
    (∀ (dtype : NpDtype) (ndims : Nat),
       (ndims = 2 ∨ ndims = 3) → (dtype = .uint8 ∨ dtype = .uint16) →
       (∃ v, fullFieldDrift_texture_setup dtype ndims = .ok v) ∧
       (∃ v, binocularDrift_texture_setup dtype ndims = .ok v) ∧
       (∃ v, set_texture_validate dtype ndims = .ok v)) ∧
    (∀ (env : FFDEEnv) (t : ℚ) (s : FFDEState) (last ect : ℚ) (ind : Int)
       (sp : FFDEStim),
      env.event_change_times.getLast? = some last → t ≤ last →
      env.event_change_times[s.current_event_num]? = some ect → ect ≤ t →
      env.events[s.current_event_num + 1]? = some ind → ind ≠ -1 →
      pyGet env.stim_params ind = some sp →
      sp.tex.ndims ≠ 2 → sp.tex.ndims ≠ 3 →
      ∃ m, set_texture_task env t s = .error (.valueError m)) := by
  refine ⟨?_, ?_, ?_⟩
  · intro dtype ndims h2 h3
    refine ⟨?_, ?_, ?_⟩
    · unfold fullFieldDrift_texture_setup
      match ndims with
      | 0 => exact ⟨_, rfl⟩
      | 1 => exact ⟨_, rfl⟩
      | 2 => exact absurd rfl h2
      | 3 => exact absurd rfl h3
      | (n + 4) => exact ⟨_, rfl⟩
    · unfold binocularDrift_texture_setup
      match ndims with
      | 0 => exact ⟨_, rfl⟩
      | 1 => exact ⟨_, rfl⟩
      | 2 => exact absurd rfl h2
      | 3 => exact absurd rfl h3
      | (n + 4) => exact ⟨_, rfl⟩
    · unfold set_texture_validate
      cases hdt : set_texture_component_type dtype with
      | error e =>
        obtain ⟨m, hm⟩ := set_texture_component_type_error_form hdt
        exact ⟨m, by rw [hm]⟩
      | ok ct =>
        obtain ⟨m, hm⟩ := set_texture_format_error_form h2 h3
        rw [hm]
        exact ⟨m, rfl⟩
  · intro dtype ndims hnd hdt
    have hct : ∃ ct, set_texture_component_type dtype = .ok ct ∧
        fullFieldDrift_component_type dtype = some ct ∧
        binocularDrift_component_type dtype = some ct := by
      rcases hdt with rfl | rfl
      · exact ⟨.t_unsigned_byte, rfl, rfl, rfl⟩
      · exact ⟨.t_unsigned_short, rfl, rfl, rfl⟩
    obtain ⟨ct, hst, hff, hbd⟩ := hct
    rcases hnd with rfl | rfl
    · refine ⟨⟨(ct, .f_luminance), ?_⟩, ⟨(ct, .f_luminance), ?_⟩,
        ⟨(ct, .f_luminance, "L"), ?_⟩⟩
      · unfold fullFieldDrift_texture_setup
        rw [hff]
      · unfold binocularDrift_texture_setup
        rw [hbd]
      · unfold set_texture_validate
        rw [hst]
        rfl
    · refine ⟨⟨(ct, .f_rgb8), ?_⟩, ⟨(ct, .f_rgb8), ?_⟩,
        ⟨(ct, .f_rgb8, "RGB"), ?_⟩⟩
      · unfold fullFieldDrift_texture_setup
        rw [hff]
      · unfold binocularDrift_texture_setup
        rw [hbd]
      · unfold set_texture_validate
        rw [hst]
        rfl
  · intro env t s last ect ind sp hlast hle hect hadv hind hne hsp h2 h3
    cases hdt : set_texture_component_type sp.tex.dtype with
    | error e =>
      obtain ⟨m, hm⟩ := set_texture_component_type_error_form hdt
      subst hm
      exact ⟨m, set_texture_task_stim_dtype_error hlast hle hect hadv hind hne hsp hdt⟩
    | ok ct =>
      obtain ⟨m, hm⟩ := set_texture_format_error_form h2 h3
      exact ⟨m, set_texture_task_stim_format_error hlast hle hect hadv hind hne hsp hdt hm⟩

/-- Witness for C4: a 4-d array fails all three validations, a 2-d uint8
array passes all three, and `set_texture_task` on `exEnvBadNdims` at
time 1 raises a ValueError. -/
theorem texture_ndim_validation_witness :
    ((∃ m, fullFieldDrift_texture_setup .uint8 4 = .error (.valueError m)) ∧
     (∃ m, binocularDrift_texture_setup .uint8 4 = .error (.valueError m)) ∧
     (∃ m, set_texture_validate .uint8 4 = .error (.valueError m))) ∧
    ((∃ v, fullFieldDrift_texture_setup .uint8 2 = .ok v) ∧
     (∃ v, binocularDrift_texture_setup .uint8 2 = .ok v) ∧
     (∃ v, set_texture_validate .uint8 2 = .ok v)) ∧
    (∃ m, set_texture_task exEnvBadNdims 1 exState0 = .error (.valueError m)) :=
  ⟨texture_ndim_validation.1 .uint8 4 (by decide) (by decide),
   texture_ndim_validation.2.1 .uint8 2 (Or.inl rfl) (Or.inl rfl),
   texture_ndim_validation.2.2 exEnvBadNdims 1 exState0 2 1 1 exStimBadNdims
     (by decide) (by decide) (by decide) (by decide) (by decide) (by decide)
     (by decide) (by decide) (by decide)⟩

/-- C5: for both per-frame tasks (`MyApp.moveTextureTask`,
`FullFieldDriftExperiment.move_texture_task`), an invocation at an
elapsed time at most the last event-change timestamp returns the
continue sentinel, and an invocation past it sets the window title to the
done title ("Full field: done" / "FFDE Done") and returns the done
sentinel so the task manager stops re-invoking it. -/
theorem task_done_sentinels :
    (∀ (env : MyAppEnv) (t : ℚ) (s s' : MyAppState) (r : TaskResult) (last : ℚ),
       env.event_change_times.getLast? = some last →
       moveTextureTask env t s = .ok (s', r) →
       ((t ≤ last → r = .cont) ∧
        (last < t → r = .done ∧ s'.title = "Full field: done"))) ∧
    (∀ (env : FFDEEnv) (t : ℚ) (s s' : FFDEState) (r : TaskResult) (last : ℚ),
       env.event_change_times.getLast? = some last →
       move_texture_task env t s = .ok (s', r) →
       ((t ≤ last → r = .cont) ∧
        (last < t → r = .done ∧ s'.title = "FFDE Done"))) := by
  constructor
  · intro env t s s' r last hlast hstep
    obtain ⟨-, -, s2, -, -, -, h4⟩ := moveTextureTask_decomp hstep
    obtain ⟨last', hlast', hc⟩ := myApp_finish_cases h4
    have hl : last' = last := by
      rw [hlast] at hlast'
      exact (Option.some.inj hlast').symm
    subst hl
    constructor
    · intro hle
      rcases hc with ⟨-, hp⟩ | ⟨hgt, -⟩
      · cases hp
        rfl
      · exact absurd hle (not_le.mpr hgt)
    · intro hgt
      rcases hc with ⟨hle, -⟩ | ⟨-, hp⟩
      · exact absurd hle (not_le.mpr hgt)
      · cases hp
        exact ⟨rfl, rfl⟩
  · intro env t s s' r last hlast hstep
    obtain ⟨last', hlast', hc⟩ := move_texture_task_cases hstep
    have hl : last' = last := by
      rw [hlast] at hlast'
      exact (Option.some.inj hlast').symm
    subst hl
    constructor
    · intro hle
      rcases hc with ⟨-, hr⟩ | ⟨hgt, -⟩
      · exact hr
      · exact absurd hle (not_le.mpr hgt)
    · intro hgt
      rcases hc with ⟨hle, -⟩ | ⟨-, hr, hs⟩
      · exact absurd hle (not_le.mpr hgt)
      · subst hs
        exact ⟨hr, rfl⟩

/-- Witness for C5: concrete invocations of both tasks below and past the
last change timestamp. -/
theorem task_done_sentinels_witness :
    (TaskResult.cont = TaskResult.cont) ∧
    (TaskResult.done = TaskResult.done ∧ exMyDone.title = "Full field: done") ∧
    (TaskResult.cont = TaskResult.cont) ∧
    (TaskResult.done = TaskResult.done ∧ exStateDone.title = "FFDE Done") :=
  ⟨(task_done_sentinels.1 exMyEnvLate 0 exMyBase exMyBase .cont 2 (by decide)
      (by decide)).1 (by decide),
   (task_done_sentinels.1 exMyEnvLate 5 exMyBase exMyDone .done 2 (by decide)
      (by decide)).2 (by decide),
   (task_done_sentinels.2 exEnv 0 exState0 exState0 .cont 2 (by decide)
      (by decide)).1 (by decide),
   (task_done_sentinels.2 exEnv 5 exState0 exStateDone .done 2 (by decide)
      (by decide)).2 (by decide)⟩
